import Mathlib

/-!
Verification of the SiteXML validated object model
(`obspy/core/inventory/sitexml.py` and `obspy/core/inventory/sitexml_header.py`).

The Python module is shallowly embedded: dynamic Python values become the
inductive type `PyVal`; the runtime class of a value becomes `PyType`;
`isinstance` becomes `isinstance`; raised exceptions become `Except PyError`.
An exception's message is an f-string built from a fixed set of components,
so each exception is modelled by its components.  Python `float` literals in
the claims (42.1, 13.4, 12.5) are exact decimal values, stored and compared
but never computed with, so they are embedded as rationals.
-/

/-- The classes defined by the sitexml module (all subclasses of the external
`ComparingObject`).  The six indicator variants are subclasses of
`SiteIndicator`. -/
inductive PyClass where
  | SERASite
  | SiteDescription
  | SiteCharacterizationParameters
  | VelocityProfile
  | VelocityProfileData
  | SiteIndicator
  | H800_class
  | EC8_class
  | BedrockDepth
  | GeologicalUnit
  | ResonanceFrequency
  | velocityS30
  | LiteratureSource
deriving DecidableEq, Repr

/-- Runtime types of the Python values that can reach the validators: the
builtin types plus the module's classes. -/
inductive PyType where
  | noneType
  | boolType
  | intType
  | floatType
  | strType
  | listType
  | cls (c : PyClass)
deriving DecidableEq, Repr

/-- Python values flowing through the module: `None`, booleans, ints, floats
(as exact rationals), strings, lists, and instances of the module's classes.
An instance is its class together with its attribute values in the order the
constructor assigns them. -/
inductive PyVal where
  | none
  | pyBool (b : Bool)
  | pyInt (n : Int)
  | pyFloat (q : Rat)
  | pyStr (s : String)
  | pyList (xs : List PyVal)
  | obj (c : PyClass) (fields : List PyVal)

/-- `type(v)` for an embedded value. -/
def typeOf : PyVal → PyType
  | .none => .noneType
  | .pyBool _ => .boolType
  | .pyInt _ => .intType
  | .pyFloat _ => .floatType
  | .pyStr _ => .strType
  | .pyList _ => .listType
  | .obj c _ => .cls c

/-- Whether `c` is one of the six `SiteIndicator` subclasses. -/
def isIndicatorSubclass : PyClass → Bool
  | .H800_class | .EC8_class | .BedrockDepth | .GeologicalUnit
  | .ResonanceFrequency | .velocityS30 => true
  | _ => false

/-- The subclass relation among the module's classes (reflexive; the six
indicator variants are subclasses of `SiteIndicator`; nothing else). -/
def subclassOf (c d : PyClass) : Bool :=
  decide (c = d) || (decide (d = PyClass.SiteIndicator) && isIndicatorSubclass c)

/-- Conformance of a runtime type to an expected type, as `isinstance` sees
it: equality, the class subtyping above, and Python's `bool <: int`. -/
def typeConforms : PyType → PyType → Bool
  | .boolType, .intType => true
  | .cls c, .cls d => subclassOf c d
  | a, b => decide (a = b)

/-- `isinstance(v, t)` for a single expected type. -/
def isinstance (v : PyVal) (t : PyType) : Bool :=
  typeConforms (typeOf v) t

/-- The `expected_type` argument of `_sitexml_check_type`: a single type or a
tuple of types (both admitted by `isinstance` and by the docstring). -/
inductive TypeSpec where
  | single (t : PyType)
  | tupleSpec (ts : List PyType)
deriving DecidableEq, Repr

/-- `isinstance(value, expected_type)` for a single type or a tuple. -/
def specMatch (v : PyVal) : TypeSpec → Bool
  | .single t => isinstance v t
  | .tupleSpec ts => ts.any (isinstance v)

/-- `__name__` of a builtin type or class, as interpolated into error
messages. -/
def typeName : PyType → String
  | .noneType => "NoneType"
  | .boolType => "bool"
  | .intType => "int"
  | .floatType => "float"
  | .strType => "str"
  | .listType => "list"
  | .cls .SERASite => "SERASite"
  | .cls .SiteDescription => "SiteDescription"
  | .cls .SiteCharacterizationParameters => "SiteCharacterizationParameters"
  | .cls .VelocityProfile => "VelocityProfile"
  | .cls .VelocityProfileData => "VelocityProfileData"
  | .cls .SiteIndicator => "SiteIndicator"
  | .cls .H800_class => "H800_class"
  | .cls .EC8_class => "EC8_class"
  | .cls .BedrockDepth => "BedrockDepth"
  | .cls .GeologicalUnit => "GeologicalUnit"
  | .cls .ResonanceFrequency => "ResonanceFrequency"
  | .cls .velocityS30 => "velocityS30"
  | .cls .LiteratureSource => "LiteratureSource"

/-- The exceptions the embedded code can raise.  Each carries exactly the
data interpolated into the corresponding Python message string. -/
inductive PyError where
  /-- The `TypeError` of `_sitexml_check_type`: parameter name, the expected
  type name (`expected_type.__name__`) and the actual type name. -/
  | typeMismatch (param_name : String) (expected_name : String) (actual_name : String)
  /-- The `ValueError` of `_sitexml_check_enum`: parameter name, the list of
  valid values, and the offending value. -/
  | invalidEnumValue (param_name : String) (valid_values : List PyVal) (got : PyVal)
  /-- `AttributeError`: the type whose instance lacks the attribute, and the
  attribute name. -/
  | attributeError (on_type : String) (attr : String)

/-- Evaluating `expected_type.__name__`: a class has a `__name__`; a tuple of
types does not, so the attribute access raises `AttributeError`. -/
def specDunderName : TypeSpec → Except PyError String
  | .single t => .ok (typeName t)
  | .tupleSpec _ => .error (.attributeError "tuple" "__name__")

/-- `value is None`. -/
def isNoneV : PyVal → Bool
  | .none => true
  | _ => false

/-- `_sitexml_check_type` (sitexml_header.py lines 59-76): allow `None` when
permitted; otherwise require `isinstance(value, expected_type)`, raising a
`TypeError` whose message interpolates `expected_type.__name__` — an
attribute access that itself fails when `expected_type` is a tuple. -/
def _sitexml_check_type (value : PyVal) (expected_type : TypeSpec)
    (param_name : String) (allow_none : Bool) : Except PyError PyVal :=
  if allow_none && isNoneV value then
    .ok value
  else if !(specMatch value expected_type) then do
    let ename ← specDunderName expected_type
    .error (.typeMismatch param_name ename (typeName (typeOf value)))
  else
    .ok value

/-- Modelled from the spec: the `Enum` container imported from
`obspy.core.util` (not under `src/`) holds a closed set of allowed string
tags; membership (`value in enum`) is membership in that set and iteration
(`[e for e in enum]`) yields the tags in order. -/
structure PyEnum where
  tags : List String
deriving DecidableEq, Repr

/-- Python `==` between an arbitrary value and a string tag: true exactly for
the equal string. -/
def pyEqStr : PyVal → String → Bool
  | .pyStr s, t => s == t
  | _, _ => false

/-- `value in enum_type`: the value equals one of the allowed string tags. -/
def enumContains (e : PyEnum) (v : PyVal) : Bool :=
  e.tags.any (fun t => pyEqStr v t)

/-- `_sitexml_check_enum` (sitexml_header.py lines 79-96): allow `None` when
permitted; otherwise require membership in the enum, raising a `ValueError`
listing the parameter name, all valid values, and the offending value. -/
def _sitexml_check_enum (value : PyVal) (enum_type : PyEnum)
    (param_name : String) (allow_none : Bool) : Except PyError PyVal :=
  if allow_none && isNoneV value then
    .ok value
  else if !(enumContains enum_type value) then
    .error (.invalidEnumValue param_name (enum_type.tags.map PyVal.pyStr) value)
  else
    .ok value

/-- `TopographySchemaA` (sitexml_header.py lines 16-21). -/
def TopographySchemaA : PyEnum := ⟨["T1", "T2", "T3", "T4"]⟩

/-- `TopographySchemaB` (sitexml_header.py lines 37-44). -/
def TopographySchemaB : PyEnum :=
  ⟨["Valley", "Lower slope", "Flat", "Middle slope", "Upper slope", "Ridge"]⟩

/-- Python truthiness of an embedded value, as `x or []` tests it.  Instances
of the module's classes define neither `__bool__` nor `__len__`, so they are
truthy. -/
def pyTruthy : PyVal → Bool
  | .none => false
  | .pyBool b => b
  | .pyInt n => !(n == 0)
  | .pyFloat q => !(q == 0)
  | .pyStr s => !(s == "")
  | .pyList xs => !xs.isEmpty
  | .obj _ _ => true

/-- `x or []`. -/
def orEmptyList (x : PyVal) : PyVal :=
  if pyTruthy x then x else .pyList []

/-- Whether a value is a Python list (the module's sequence representation). -/
def isPyList : PyVal → Bool
  | .pyList _ => true
  | _ => false

/-- `SERASite.__init__` (sitexml.py lines 35-55).  Attribute order:
station_code, site_description, site_characterization_parameters,
overall_quality_index.  The Python defaults are `None` for all optional
parameters; callers of the embedding pass `.none` for an omitted argument. -/
def SERASite_init (station_code site_description
    site_characterization_parameters overall_quality_index : PyVal) :
    Except PyError PyVal := do
  let sd ← _sitexml_check_type site_description
    (.single (.cls .SiteDescription)) "site_description" true
  let scp ← _sitexml_check_type site_characterization_parameters
    (.single (.cls .SiteCharacterizationParameters))
    "site_characterization_parameters" true
  .ok (.obj .SERASite [station_code, sd, scp, overall_quality_index])

/-- `SiteDescription.__init__` (sitexml.py lines 58-109).  Attribute order:
latitude, longitude, altitude, minDistanceFromStation,
maxDistanceFromStation, EC8, bedrock_depth, H800, geological_unit,
morphology, topologyA, topologyB. -/
def SiteDescription_init (latitude longitude altitude minDistanceFromStation
    maxDistanceFromStation EC8 bedrock_depth H800 geological_unit morphology
    topologyA topologyB : PyVal) : Except PyError PyVal := do
  let ec8 ← _sitexml_check_type EC8 (.single (.cls .EC8_class)) "EC8" true
  let bd ← _sitexml_check_type bedrock_depth
    (.single (.cls .BedrockDepth)) "bedrock_depth" true
  let h8 ← _sitexml_check_type H800 (.single (.cls .H800_class)) "H800" true
  let gu ← _sitexml_check_type geological_unit
    (.single (.cls .GeologicalUnit)) "geological_unit" true
  let ta ← _sitexml_check_enum topologyA TopographySchemaA "topologyA" true
  let tb ← _sitexml_check_enum topologyB TopographySchemaB "topologyB" true
  .ok (.obj .SiteDescription [latitude, longitude, altitude,
    minDistanceFromStation, maxDistanceFromStation, ec8, bd, h8, gu,
    morphology, ta, tb])

/-- `SiteCharacterizationParameters.__init__` (sitexml.py lines 112-143).
Attribute order: publicID, analysis_publicID, resonance_frequency,
velocity_s30, velocity_profile_count, velocity_profile, spt_logs_count,
cpt_logs_count, borehole_logs_count.  `velocity_profile` is stored as
`velocity_profile or []`. -/
def SiteCharacterizationParameters_init (publicID analysis_publicID
    resonance_frequency velocity_s30 velocity_profile_count velocity_profile
    spt_logs_count cpt_logs_count borehole_logs_count : PyVal) :
    Except PyError PyVal := do
  let rf ← _sitexml_check_type resonance_frequency
    (.single (.cls .ResonanceFrequency)) "resonance_frequency" true
  let v30 ← _sitexml_check_type velocity_s30
    (.single (.cls .velocityS30)) "velocity_s30" true
  .ok (.obj .SiteCharacterizationParameters [publicID, analysis_publicID,
    rf, v30, velocity_profile_count, orEmptyList velocity_profile,
    spt_logs_count, cpt_logs_count, borehole_logs_count])

/-- `VelocityProfile.__init__` (sitexml.py lines 145-148): plain assignments,
no validation. -/
def VelocityProfile_init (layer_count velocity_profile_data : PyVal) : PyVal :=
  .obj .VelocityProfile [layer_count, velocity_profile_data]

/-- `VelocityProfileData.__init__` (sitexml.py lines 150-158): plain
assignments, no validation.  Attribute order: density, velocityP, velocityS,
layerTopDepth, layerBottomDepth. -/
def VelocityProfileData_init (density velocityP velocityS layer_top_depth
    layer_bottom_depth : PyVal) : PyVal :=
  .obj .VelocityProfileData [density, velocityP, velocityS, layer_top_depth,
    layer_bottom_depth]

/-- The attribute values assigned by `SiteIndicator.__init__` (sitexml.py
lines 160-168), in order: name, value, uncertainty, methods (stored as
`methods or []`), quality_index, literature_source, external_reference. -/
def SiteIndicator_fields (name value uncertainty methods quality_index
    literature_source external_reference : PyVal) : List PyVal :=
  [name, value, uncertainty, orEmptyList methods, quality_index,
    literature_source, external_reference]

/-- `SiteIndicator.__init__` on a direct instance of the base class. -/
def SiteIndicator_init (name value uncertainty methods quality_index
    literature_source external_reference : PyVal) : PyVal :=
  .obj .SiteIndicator (SiteIndicator_fields name value uncertainty methods
    quality_index literature_source external_reference)

/-- `H800_class.__init__` (sitexml.py lines 170-177): fixes `name = "H800"`
and forwards everything else to the base protocol. -/
def H800_class_init (value uncertainty methods quality_index
    literature_source external_reference : PyVal) : PyVal :=
  .obj .H800_class (SiteIndicator_fields (.pyStr "H800") value uncertainty
    methods quality_index literature_source external_reference)

/-- `EC8_class.__init__` (sitexml.py lines 179-186): fixes `name = "EC8"`. -/
def EC8_class_init (value uncertainty methods quality_index
    literature_source external_reference : PyVal) : PyVal :=
  .obj .EC8_class (SiteIndicator_fields (.pyStr "EC8") value uncertainty
    methods quality_index literature_source external_reference)

/-- `BedrockDepth.__init__` (sitexml.py lines 188-195): fixes
`name = "bedrock_depth"`. -/
def BedrockDepth_init (value uncertainty methods quality_index
    literature_source external_reference : PyVal) : PyVal :=
  .obj .BedrockDepth (SiteIndicator_fields (.pyStr "bedrock_depth") value
    uncertainty methods quality_index literature_source external_reference)

/-- `GeologicalUnit.__init__` (sitexml.py lines 197-206): fixes
`name = "geological_unit"` and adds the attributes geological_map_scale and
geological_unit_OGE. -/
def GeologicalUnit_init (value uncertainty methods quality_index
    literature_source external_reference geological_map_scale
    geological_unit_OGE : PyVal) : PyVal :=
  .obj .GeologicalUnit (SiteIndicator_fields (.pyStr "geological_unit") value
    uncertainty methods quality_index literature_source external_reference
    ++ [geological_map_scale, geological_unit_OGE])

/-- `ResonanceFrequency.__init__` (sitexml.py lines 208-215): fixes
`name = "resonance_frequency"`. -/
def ResonanceFrequency_init (value uncertainty methods quality_index
    literature_source external_reference : PyVal) : PyVal :=
  .obj .ResonanceFrequency (SiteIndicator_fields (.pyStr "resonance_frequency")
    value uncertainty methods quality_index literature_source
    external_reference)

/-- `velocityS30.__init__` (sitexml.py lines 217-226): fixes
`name = "velocity_s30"` and adds the attributes
method_combined_quality_index and manual_quality_index. -/
def velocityS30_init (value uncertainty methods quality_index
    literature_source external_reference method_combined_quality_index
    manual_quality_index : PyVal) : PyVal :=
  .obj .velocityS30 (SiteIndicator_fields (.pyStr "velocity_s30") value
    uncertainty methods quality_index literature_source external_reference
    ++ [method_combined_quality_index, manual_quality_index])

/-- `LiteratureSource.__init__` (sitexml.py lines 228-236): plain
assignments, no validation.  Attribute order: title, firstAuthor,
secondaryAuthors, year, booktitle, language, DOI. -/
def LiteratureSource_init (title firstAuthor secondaryAuthors year booktitle
    language DOI : PyVal) : PyVal :=
  .obj .LiteratureSource [title, firstAuthor, secondaryAuthors, year,
    booktitle, language, DOI]

/-- Modelled from the spec: equality inherited from `ComparingObject`
(`obspy.core.util.base`, not under `src/`): two entities of the same type
are equal exactly when all their stored fields compare equal; an entity
never equals a value that is not an entity of the same type. -/
def comparingEq (a b : PyVal) : Prop :=
  match a, b with
  | .obj c fs, .obj d gs => c = d ∧ fs = gs
  | x, y => x = y

/-- Attribute projection: the i-th attribute assigned by a constructor
(`.none` if the value is not an instance or the index is out of range). -/
def attrAt (v : PyVal) (i : Nat) : PyVal :=
  match v with
  | .obj _ fs => fs.getD i .none
  | _ => .none

theorem isNoneV_eq_true {v : PyVal} : isNoneV v = true ↔ v = PyVal.none := by
  cases v <;> simp [isNoneV]

theorem check_type_not_instance {v : PyVal} {t : PyType} (p : String)
    (hv : v ≠ PyVal.none) (hi : isinstance v t = false) :
    _sitexml_check_type v (.single t) p true
      = .error (.typeMismatch p (typeName t) (typeName (typeOf v))) := by
  have hn : isNoneV v = false := by
    cases v <;> simp_all [isNoneV]
  simp [_sitexml_check_type, hn, specMatch, hi, specDunderName]
  rfl

theorem check_enum_ok_of_mem {v : PyVal} {e : PyEnum} (p : String) (an : Bool)
    (hm : enumContains e v = true) :
    _sitexml_check_enum v e p an = .ok v := by
  unfold _sitexml_check_enum
  split
  · rfl
  · simp [hm]

theorem check_enum_error_of_not_mem {v : PyVal} {e : PyEnum} (p : String)
    {an : Bool} (hm : enumContains e v = false)
    (hv : ¬(an = true ∧ v = PyVal.none)) :
    _sitexml_check_enum v e p an
      = .error (.invalidEnumValue p (e.tags.map PyVal.pyStr) v) := by
  have hb : (an && isNoneV v) = false := by
    cases an <;> cases v <;> simp_all [isNoneV]
  simp [_sitexml_check_enum, hb, hm]

theorem enumContains_pyStr {e : PyEnum} {s : String} :
    enumContains e (.pyStr s) = true ↔ s ∈ e.tags := by
  simp [enumContains, pyEqStr, List.any_eq_true]

/-- C1: refuted as stated.  For a single expected type the validator behaves
as the claim says, but for a set (tuple) of expected types and a
non-conforming value the error path evaluates `expected_type.__name__`,
which a tuple does not have, so the call raises `AttributeError` instead of
the promised `TypeMismatch` (`TypeError`) — contradicting the function's own
docstring, which admits a tuple of types and promises `TypeError`.  The
theorem evaluates the validator at the failing input and, for contrast, at
the same value with a single expected type. -/
theorem spec_c1_check_type_tuple_raises_attribute_error :
    _sitexml_check_type (.pyInt 1)
        (.tupleSpec [.cls .EC8_class, .cls .H800_class]) "x" false
      = .error (.attributeError "tuple" "__name__")
    ∧ _sitexml_check_type (.pyInt 1) (.single (.cls .EC8_class)) "x" false
      = .error (.typeMismatch "x" "EC8_class" "int") :=
  ⟨rfl, rfl⟩

/-- C2: the enum validator returns the value unchanged when it is
absent-and-allowed or a member of the allowed set, and otherwise fails with
an `InvalidEnumValue` error carrying the field name, the full allowed set,
and the offending value — for every value, allowed set, field name, and
flag setting. -/
theorem spec_c2_check_enum_contract (v : PyVal) (e : PyEnum) (p : String)
    (an : Bool) :
    ((an = true ∧ v = PyVal.none) ∨ enumContains e v = true →
      _sitexml_check_enum v e p an = .ok v)
    ∧ (¬(an = true ∧ v = PyVal.none) → enumContains e v = false →
      _sitexml_check_enum v e p an
        = .error (.invalidEnumValue p (e.tags.map PyVal.pyStr) v)) := by
  constructor
  · rintro (⟨ha, hv⟩ | hmem)
    · subst ha hv
      rfl
    · exact check_enum_ok_of_mem p an hmem
  · intro hno hmem
    exact check_enum_error_of_not_mem p hmem hno

/-- C2 witness: the contract applied to `TopographySchemaA` with field name
"topologyA": "T1" passes through unchanged, "T9" is rejected with the full
allowed set and the offending value. -/
theorem spec_c2_check_enum_contract_witness :
    _sitexml_check_enum (.pyStr "T1") TopographySchemaA "topologyA" false
      = .ok (.pyStr "T1")
    ∧ _sitexml_check_enum (.pyStr "T9") TopographySchemaA "topologyA" false
      = .error (.invalidEnumValue "topologyA"
          [.pyStr "T1", .pyStr "T2", .pyStr "T3", .pyStr "T4"] (.pyStr "T9")) :=
  ⟨(spec_c2_check_enum_contract (.pyStr "T1") TopographySchemaA "topologyA"
      false).1 (Or.inr rfl),
   (spec_c2_check_enum_contract (.pyStr "T9") TopographySchemaA "topologyA"
      false).2 (by simp) rfl⟩

/-- C3: for every field declared reference-typed-optional (the two fields of
`SERASite`, the four indicator fields of `SiteDescription`, and the two
indicator fields of `SiteCharacterizationParameters`), construction with the
field absent succeeds and stores the absent marker, and construction with
the field set to a present value that is not an instance of the declared
type fails with a `TypeMismatch` naming the field; in particular
`SiteDescription(latitude=42.1, longitude=13.4, EC8="not-an-EC8-object")`
fails with a `TypeMismatch` naming `EC8`. -/
theorem spec_c3_reference_typed_optional_fields :
    (∀ sc oqi, SERASite_init sc .none .none oqi
      = .ok (.obj .SERASite [sc, .none, .none, oqi]))
    ∧ (∀ sc oqi v, v ≠ PyVal.none →
        isinstance v (.cls .SiteDescription) = false →
        SERASite_init sc v .none oqi
          = .error (.typeMismatch "site_description" "SiteDescription"
              (typeName (typeOf v))))
    ∧ (∀ sc oqi v, v ≠ PyVal.none →
        isinstance v (.cls .SiteCharacterizationParameters) = false →
        SERASite_init sc .none v oqi
          = .error (.typeMismatch "site_characterization_parameters"
              "SiteCharacterizationParameters" (typeName (typeOf v))))
    ∧ (∀ lat lon alt mnd mxd morph,
        SiteDescription_init lat lon alt mnd mxd .none .none .none .none
            morph .none .none
          = .ok (.obj .SiteDescription [lat, lon, alt, mnd, mxd, .none,
              .none, .none, .none, morph, .none, .none]))
    ∧ (∀ lat lon v, v ≠ PyVal.none → isinstance v (.cls .EC8_class) = false →
        SiteDescription_init lat lon .none .none .none v .none .none .none
            .none .none .none
          = .error (.typeMismatch "EC8" "EC8_class" (typeName (typeOf v))))
    ∧ (∀ lat lon v, v ≠ PyVal.none →
        isinstance v (.cls .BedrockDepth) = false →
        SiteDescription_init lat lon .none .none .none .none v .none .none
            .none .none .none
          = .error (.typeMismatch "bedrock_depth" "BedrockDepth"
              (typeName (typeOf v))))
    ∧ (∀ lat lon v, v ≠ PyVal.none → isinstance v (.cls .H800_class) = false →
        SiteDescription_init lat lon .none .none .none .none .none v .none
            .none .none .none
          = .error (.typeMismatch "H800" "H800_class" (typeName (typeOf v))))
    ∧ (∀ lat lon v, v ≠ PyVal.none →
        isinstance v (.cls .GeologicalUnit) = false →
        SiteDescription_init lat lon .none .none .none .none .none .none v
            .none .none .none
          = .error (.typeMismatch "geological_unit" "GeologicalUnit"
              (typeName (typeOf v))))
    ∧ (∀ pid apid vpc vp spt cpt bh,
        SiteCharacterizationParameters_init pid apid .none .none vpc vp spt
            cpt bh
          = .ok (.obj .SiteCharacterizationParameters [pid, apid, .none,
              .none, vpc, orEmptyList vp, spt, cpt, bh]))
    ∧ (∀ pid apid v, v ≠ PyVal.none →
        isinstance v (.cls .ResonanceFrequency) = false →
        SiteCharacterizationParameters_init pid apid v .none .none .none
            .none .none .none
          = .error (.typeMismatch "resonance_frequency" "ResonanceFrequency"
              (typeName (typeOf v))))
    ∧ (∀ pid apid v, v ≠ PyVal.none →
        isinstance v (.cls .velocityS30) = false →
        SiteCharacterizationParameters_init pid apid .none v .none .none
            .none .none .none
          = .error (.typeMismatch "velocity_s30" "velocityS30"
              (typeName (typeOf v))))
    ∧ SiteDescription_init (.pyFloat 42.1) (.pyFloat 13.4) .none .none .none
        (.pyStr "not-an-EC8-object") .none .none .none .none .none .none
      = .error (.typeMismatch "EC8" "EC8_class" "str") := by
  refine ⟨fun sc oqi => rfl, ?_, ?_, fun lat lon alt mnd mxd morph => rfl,
    ?_, ?_, ?_, ?_, fun pid apid vpc vp spt cpt bh => rfl, ?_, ?_, rfl⟩
  all_goals
    intro a b v hv hi
  · simp only [SERASite_init, check_type_not_instance _ hv hi]
    rfl
  · simp only [SERASite_init, check_type_not_instance _ hv hi]
    rfl
  · simp only [SiteDescription_init, check_type_not_instance _ hv hi]
    rfl
  · simp only [SiteDescription_init, check_type_not_instance _ hv hi]
    rfl
  · simp only [SiteDescription_init, check_type_not_instance _ hv hi]
    rfl
  · simp only [SiteDescription_init, check_type_not_instance _ hv hi]
    rfl
  · simp only [SiteCharacterizationParameters_init,
      check_type_not_instance _ hv hi]
    rfl
  · simp only [SiteCharacterizationParameters_init,
      check_type_not_instance _ hv hi]
    rfl

/-- C3 witness: the absent case and the mismatch case at concrete inputs —
`SERASite("ST01")` succeeds storing both optional references as absent, and
scenario 4 (`EC8` set to the bare string "not-an-EC8-object") fails with a
`TypeMismatch` naming `EC8`, type `EC8_class`, actual type `str`. -/
theorem spec_c3_reference_typed_optional_fields_witness :
    SERASite_init (.pyStr "ST01") .none .none .none
      = .ok (.obj .SERASite [.pyStr "ST01", .none, .none, .none])
    ∧ SiteDescription_init (.pyFloat 42.1) (.pyFloat 13.4) .none .none .none
        (.pyStr "not-an-EC8-object") .none .none .none .none .none .none
      = .error (.typeMismatch "EC8" "EC8_class" "str") :=
  ⟨spec_c3_reference_typed_optional_fields.1 (.pyStr "ST01") .none,
   (spec_c3_reference_typed_optional_fields.2.2.2.2.1 (.pyFloat 42.1)
      (.pyFloat 13.4) (.pyStr "not-an-EC8-object") (by intro h; cases h) rfl)⟩

/-- C4 counterexample: the claim "`methods` ... always stored as sequences
... for every successful construction" fails — `SiteIndicator` constructed
with `methods = 5` (a truthy non-sequence) succeeds and stores the bare
integer 5, which is not a sequence, as its `methods` attribute. -/
theorem spec_c4_sequence_fields_counterexample :
    attrAt (SiteIndicator_init (.pyStr "n") (.pyFloat 1) .none (.pyInt 5)
        .none .none .none) 3
      = .pyInt 5
    ∧ isPyList (.pyInt 5) = false :=
  ⟨rfl, rfl⟩

/-- C4 amended: when `methods` (on `SiteIndicator`) or `velocity_profile`
(on `SiteCharacterizationParameters`) is omitted, absent, or any other falsy
value, an empty sequence is stored; the stored field is never the absent
marker; and a sequence input stays a sequence.  But a truthy non-sequence
argument is stored unchanged, so the stored field is a sequence only when
the input is absent, falsy, or itself a sequence. -/
theorem spec_c4_sequence_fields_amended (m : PyVal) :
    (∀ n v u qi ls er,
      attrAt (SiteIndicator_init n v u m qi ls er) 3 = orEmptyList m)
    ∧ (∀ pid apid vpc spt cpt bh,
      SiteCharacterizationParameters_init pid apid .none .none vpc m spt
          cpt bh
        = .ok (.obj .SiteCharacterizationParameters [pid, apid, .none,
            .none, vpc, orEmptyList m, spt, cpt, bh]))
    ∧ (m = PyVal.none → orEmptyList m = .pyList [])
    ∧ orEmptyList m ≠ PyVal.none
    ∧ (isPyList m = true → isPyList (orEmptyList m) = true)
    ∧ (pyTruthy m = true → orEmptyList m = m) := by
  refine ⟨fun n v u qi ls er => rfl, fun pid apid vpc spt cpt bh => rfl,
    ?_, ?_, ?_, ?_⟩
  · intro h
    subst h
    rfl
  · unfold orEmptyList
    split
    · intro h
      subst h
      simp [pyTruthy] at *
    · intro h
      cases h
  · intro h
    unfold orEmptyList
    split
    · exact h
    · rfl
  · intro h
    simp [orEmptyList, h]

/-- C4 witness: the amended statement at three concrete inputs — absent
(stored as the empty sequence), a one-element list (stored as that list,
a sequence), and the truthy integer 5 (stored unchanged). -/
theorem spec_c4_sequence_fields_amended_witness :
    orEmptyList PyVal.none = .pyList []
    ∧ orEmptyList (.pyList [.pyStr "MASW"]) ≠ PyVal.none
    ∧ isPyList (orEmptyList (.pyList [.pyStr "MASW"])) = true
    ∧ orEmptyList (.pyInt 5) = .pyInt 5 :=
  ⟨(spec_c4_sequence_fields_amended PyVal.none).2.2.1 rfl,
   (spec_c4_sequence_fields_amended (.pyList [.pyStr "MASW"])).2.2.2.1,
   (spec_c4_sequence_fields_amended (.pyList [.pyStr "MASW"])).2.2.2.2.1 rfl,
   (spec_c4_sequence_fields_amended (.pyInt 5)).2.2.2.2.2 rfl⟩

/-- C5: for every entity type and every input, a failing field validation
forces construction to abort entirely: each of the three validating
constructors (`SERASite`, `SiteDescription`,
`SiteCharacterizationParameters`) returns exactly the error raised by its
first failing field validation — no entity is returned in that case and the
error is propagated unchanged, not retried or swallowed — and returns the
fully constructed entity when every validation passes.  (The remaining
constructors are total functions in the embedding: they return an entity,
never an error.) -/
theorem spec_c5_construction_aborts_atomically :
    (∀ sc sd scp oqi e,
      _sitexml_check_type sd (.single (.cls .SiteDescription))
          "site_description" true = .error e →
      SERASite_init sc sd scp oqi = .error e)
    ∧ (∀ sc sd scp oqi v1 e,
      _sitexml_check_type sd (.single (.cls .SiteDescription))
          "site_description" true = .ok v1 →
      _sitexml_check_type scp
          (.single (.cls .SiteCharacterizationParameters))
          "site_characterization_parameters" true = .error e →
      SERASite_init sc sd scp oqi = .error e)
    ∧ (∀ sc sd scp oqi v1 v2,
      _sitexml_check_type sd (.single (.cls .SiteDescription))
          "site_description" true = .ok v1 →
      _sitexml_check_type scp
          (.single (.cls .SiteCharacterizationParameters))
          "site_characterization_parameters" true = .ok v2 →
      SERASite_init sc sd scp oqi = .ok (.obj .SERASite [sc, v1, v2, oqi]))
    ∧ (∀ lat lon alt mnd mxd ec8 bd h8 gu morph ta tb e,
      _sitexml_check_type ec8 (.single (.cls .EC8_class)) "EC8" true
        = .error e →
      SiteDescription_init lat lon alt mnd mxd ec8 bd h8 gu morph ta tb
        = .error e)
    ∧ (∀ lat lon alt mnd mxd ec8 bd h8 gu morph ta tb v1 e,
      _sitexml_check_type ec8 (.single (.cls .EC8_class)) "EC8" true
        = .ok v1 →
      _sitexml_check_type bd (.single (.cls .BedrockDepth)) "bedrock_depth"
          true = .error e →
      SiteDescription_init lat lon alt mnd mxd ec8 bd h8 gu morph ta tb
        = .error e)
    ∧ (∀ lat lon alt mnd mxd ec8 bd h8 gu morph ta tb v1 v2 e,
      _sitexml_check_type ec8 (.single (.cls .EC8_class)) "EC8" true
        = .ok v1 →
      _sitexml_check_type bd (.single (.cls .BedrockDepth)) "bedrock_depth"
          true = .ok v2 →
      _sitexml_check_type h8 (.single (.cls .H800_class)) "H800" true
        = .error e →
      SiteDescription_init lat lon alt mnd mxd ec8 bd h8 gu morph ta tb
        = .error e)
    ∧ (∀ lat lon alt mnd mxd ec8 bd h8 gu morph ta tb v1 v2 v3 e,
      _sitexml_check_type ec8 (.single (.cls .EC8_class)) "EC8" true
        = .ok v1 →
      _sitexml_check_type bd (.single (.cls .BedrockDepth)) "bedrock_depth"
          true = .ok v2 →
      _sitexml_check_type h8 (.single (.cls .H800_class)) "H800" true
        = .ok v3 →
      _sitexml_check_type gu (.single (.cls .GeologicalUnit))
          "geological_unit" true = .error e →
      SiteDescription_init lat lon alt mnd mxd ec8 bd h8 gu morph ta tb
        = .error e)
    ∧ (∀ lat lon alt mnd mxd ec8 bd h8 gu morph ta tb v1 v2 v3 v4 e,
      _sitexml_check_type ec8 (.single (.cls .EC8_class)) "EC8" true
        = .ok v1 →
      _sitexml_check_type bd (.single (.cls .BedrockDepth)) "bedrock_depth"
          true = .ok v2 →
      _sitexml_check_type h8 (.single (.cls .H800_class)) "H800" true
        = .ok v3 →
      _sitexml_check_type gu (.single (.cls .GeologicalUnit))
          "geological_unit" true = .ok v4 →
      _sitexml_check_enum ta TopographySchemaA "topologyA" true = .error e →
      SiteDescription_init lat lon alt mnd mxd ec8 bd h8 gu morph ta tb
        = .error e)
    ∧ (∀ lat lon alt mnd mxd ec8 bd h8 gu morph ta tb v1 v2 v3 v4 v5 e,
      _sitexml_check_type ec8 (.single (.cls .EC8_class)) "EC8" true
        = .ok v1 →
      _sitexml_check_type bd (.single (.cls .BedrockDepth)) "bedrock_depth"
          true = .ok v2 →
      _sitexml_check_type h8 (.single (.cls .H800_class)) "H800" true
        = .ok v3 →
      _sitexml_check_type gu (.single (.cls .GeologicalUnit))
          "geological_unit" true = .ok v4 →
      _sitexml_check_enum ta TopographySchemaA "topologyA" true = .ok v5 →
      _sitexml_check_enum tb TopographySchemaB "topologyB" true = .error e →
      SiteDescription_init lat lon alt mnd mxd ec8 bd h8 gu morph ta tb
        = .error e)
    ∧ (∀ lat lon alt mnd mxd ec8 bd h8 gu morph ta tb v1 v2 v3 v4 v5 v6,
      _sitexml_check_type ec8 (.single (.cls .EC8_class)) "EC8" true
        = .ok v1 →
      _sitexml_check_type bd (.single (.cls .BedrockDepth)) "bedrock_depth"
          true = .ok v2 →
      _sitexml_check_type h8 (.single (.cls .H800_class)) "H800" true
        = .ok v3 →
      _sitexml_check_type gu (.single (.cls .GeologicalUnit))
          "geological_unit" true = .ok v4 →
      _sitexml_check_enum ta TopographySchemaA "topologyA" true = .ok v5 →
      _sitexml_check_enum tb TopographySchemaB "topologyB" true = .ok v6 →
      SiteDescription_init lat lon alt mnd mxd ec8 bd h8 gu morph ta tb
        = .ok (.obj .SiteDescription [lat, lon, alt, mnd, mxd, v1, v2, v3,
            v4, morph, v5, v6]))
    ∧ (∀ pid apid rf v30 vpc vp spt cpt bh e,
      _sitexml_check_type rf (.single (.cls .ResonanceFrequency))
          "resonance_frequency" true = .error e →
      SiteCharacterizationParameters_init pid apid rf v30 vpc vp spt cpt bh
        = .error e)
    ∧ (∀ pid apid rf v30 vpc vp spt cpt bh v1 e,
      _sitexml_check_type rf (.single (.cls .ResonanceFrequency))
          "resonance_frequency" true = .ok v1 →
      _sitexml_check_type v30 (.single (.cls .velocityS30)) "velocity_s30"
          true = .error e →
      SiteCharacterizationParameters_init pid apid rf v30 vpc vp spt cpt bh
        = .error e)
    ∧ (∀ pid apid rf v30 vpc vp spt cpt bh v1 v2,
      _sitexml_check_type rf (.single (.cls .ResonanceFrequency))
          "resonance_frequency" true = .ok v1 →
      _sitexml_check_type v30 (.single (.cls .velocityS30)) "velocity_s30"
          true = .ok v2 →
      SiteCharacterizationParameters_init pid apid rf v30 vpc vp spt cpt bh
        = .ok (.obj .SiteCharacterizationParameters [pid, apid, v1, v2,
            vpc, orEmptyList vp, spt, cpt, bh])) := by
  refine ⟨fun sc sd scp oqi e h1 => ?_,
    fun sc sd scp oqi v1 e h1 h2 => ?_,
    fun sc sd scp oqi v1 v2 h1 h2 => ?_,
    fun lat lon alt mnd mxd ec8 bd h8 gu morph ta tb e h1 => ?_,
    fun lat lon alt mnd mxd ec8 bd h8 gu morph ta tb v1 e h1 h2 => ?_,
    fun lat lon alt mnd mxd ec8 bd h8 gu morph ta tb v1 v2 e h1 h2 h3 => ?_,
    fun lat lon alt mnd mxd ec8 bd h8 gu morph ta tb v1 v2 v3 e h1 h2 h3
      h4 => ?_,
    fun lat lon alt mnd mxd ec8 bd h8 gu morph ta tb v1 v2 v3 v4 e h1 h2 h3
      h4 h5 => ?_,
    fun lat lon alt mnd mxd ec8 bd h8 gu morph ta tb v1 v2 v3 v4 v5 e h1 h2
      h3 h4 h5 h6 => ?_,
    fun lat lon alt mnd mxd ec8 bd h8 gu morph ta tb v1 v2 v3 v4 v5 v6 h1
      h2 h3 h4 h5 h6 => ?_,
    fun pid apid rf v30 vpc vp spt cpt bh e h1 => ?_,
    fun pid apid rf v30 vpc vp spt cpt bh v1 e h1 h2 => ?_,
    fun pid apid rf v30 vpc vp spt cpt bh v1 v2 h1 h2 => ?_⟩
  · unfold SERASite_init
    rw [h1]
    rfl
  · unfold SERASite_init
    rw [h1, h2]
    rfl
  · unfold SERASite_init
    rw [h1, h2]
    rfl
  · unfold SiteDescription_init
    rw [h1]
    rfl
  · unfold SiteDescription_init
    rw [h1, h2]
    rfl
  · unfold SiteDescription_init
    rw [h1, h2, h3]
    rfl
  · unfold SiteDescription_init
    rw [h1, h2, h3, h4]
    rfl
  · unfold SiteDescription_init
    rw [h1, h2, h3, h4, h5]
    rfl
  · unfold SiteDescription_init
    rw [h1, h2, h3, h4, h5, h6]
    rfl
  · unfold SiteDescription_init
    rw [h1, h2, h3, h4, h5, h6]
    rfl
  · unfold SiteCharacterizationParameters_init
    rw [h1]
    rfl
  · unfold SiteCharacterizationParameters_init
    rw [h1, h2]
    rfl
  · unfold SiteCharacterizationParameters_init
    rw [h1, h2]
    rfl

/-- C5 witness: the forcing direction at concrete inputs — a failing
`site_description` validation on `SERASite` forces construction to return
exactly that `TypeMismatch`; a failing `topologyA` validation on
`SiteDescription` (after the four reference checks pass on absent values)
forces exactly that `InvalidEnumValue`; and with every validation passing,
`SiteCharacterizationParameters` returns the fully constructed entity. -/
theorem spec_c5_construction_aborts_atomically_witness :
    SERASite_init (.pyStr "ST01") (.pyInt 7) .none .none
      = .error (.typeMismatch "site_description" "SiteDescription" "int")
    ∧ SiteDescription_init (.pyFloat 42.1) (.pyFloat 13.4) .none .none
        .none .none .none .none .none .none (.pyStr "T9") .none
      = .error (.invalidEnumValue "topologyA"
          [.pyStr "T1", .pyStr "T2", .pyStr "T3", .pyStr "T4"] (.pyStr "T9"))
    ∧ SiteCharacterizationParameters_init (.pyStr "smp:sc/1") .none .none
        .none (.pyInt 0) .none (.pyInt 0) (.pyInt 0) (.pyInt 0)
      = .ok (.obj .SiteCharacterizationParameters [.pyStr "smp:sc/1",
          .none, .none, .none, .pyInt 0, .pyList [], .pyInt 0, .pyInt 0,
          .pyInt 0]) :=
  ⟨spec_c5_construction_aborts_atomically.1 (.pyStr "ST01") (.pyInt 7)
      .none .none _ rfl,
   spec_c5_construction_aborts_atomically.2.2.2.2.2.2.2.1 (.pyFloat 42.1)
      (.pyFloat 13.4) .none .none .none .none .none .none .none .none
      (.pyStr "T9") .none .none .none .none .none _ rfl rfl rfl rfl rfl,
   spec_c5_construction_aborts_atomically.2.2.2.2.2.2.2.2.2.2.2.2
      (.pyStr "smp:sc/1") .none .none .none (.pyInt 0) .none (.pyInt 0)
      (.pyInt 0) (.pyInt 0) .none .none rfl rfl⟩

/-- C6: `SiteDescription(latitude=42.1, longitude=13.4, topologyA="T1")`
succeeds and stores exactly "T1"; with `topologyA="T9"` it fails with an
`InvalidEnumValue` listing {T1, T2, T3, T4} and the offending value; and in
general, for both enum-typed fields (`topologyA` over `TopographySchemaA`
and `topologyB` over `TopographySchemaB`), every member of the allowed set
is accepted and stored unchanged and every string outside it is rejected
with an `InvalidEnumValue` listing the set and the value. -/
theorem spec_c6_enum_fields_accept_members_reject_others :
    SiteDescription_init (.pyFloat 42.1) (.pyFloat 13.4) .none .none .none
        .none .none .none .none .none (.pyStr "T1") .none
      = .ok (.obj .SiteDescription [.pyFloat 42.1, .pyFloat 13.4, .none,
          .none, .none, .none, .none, .none, .none, .none, .pyStr "T1",
          .none])
    ∧ SiteDescription_init (.pyFloat 42.1) (.pyFloat 13.4) .none .none .none
        .none .none .none .none .none (.pyStr "T9") .none
      = .error (.invalidEnumValue "topologyA"
          [.pyStr "T1", .pyStr "T2", .pyStr "T3", .pyStr "T4"] (.pyStr "T9"))
    ∧ (∀ s ∈ TopographySchemaA.tags, ∀ lat lon,
        SiteDescription_init lat lon .none .none .none .none .none .none
            .none .none (.pyStr s) .none
          = .ok (.obj .SiteDescription [lat, lon, .none, .none, .none,
              .none, .none, .none, .none, .none, .pyStr s, .none]))
    ∧ (∀ s, s ∉ TopographySchemaA.tags → ∀ lat lon,
        SiteDescription_init lat lon .none .none .none .none .none .none
            .none .none (.pyStr s) .none
          = .error (.invalidEnumValue "topologyA"
              (TopographySchemaA.tags.map PyVal.pyStr) (.pyStr s)))
    ∧ (∀ s ∈ TopographySchemaB.tags, ∀ lat lon,
        SiteDescription_init lat lon .none .none .none .none .none .none
            .none .none .none (.pyStr s)
          = .ok (.obj .SiteDescription [lat, lon, .none, .none, .none,
              .none, .none, .none, .none, .none, .none, .pyStr s]))
    ∧ (∀ s, s ∉ TopographySchemaB.tags → ∀ lat lon,
        SiteDescription_init lat lon .none .none .none .none .none .none
            .none .none .none (.pyStr s)
          = .error (.invalidEnumValue "topologyB"
              (TopographySchemaB.tags.map PyVal.pyStr) (.pyStr s))) := by
  refine ⟨rfl, rfl, ?_, ?_, ?_, ?_⟩
  · intro s hs lat lon
    have hm : enumContains TopographySchemaA (.pyStr s) = true :=
      enumContains_pyStr.2 hs
    unfold SiteDescription_init
    rw [check_enum_ok_of_mem "topologyA" true hm]
    rfl
  · intro s hs lat lon
    have hm : enumContains TopographySchemaA (.pyStr s) = false := by
      cases h : enumContains TopographySchemaA (.pyStr s) with
      | false => rfl
      | true => exact absurd (enumContains_pyStr.1 h) hs
    have hv : ¬(true = true ∧ PyVal.pyStr s = PyVal.none) := by
      rintro ⟨-, h⟩
      cases h
    unfold SiteDescription_init
    rw [check_enum_error_of_not_mem "topologyA" hm hv]
    rfl
  · intro s hs lat lon
    have hm : enumContains TopographySchemaB (.pyStr s) = true :=
      enumContains_pyStr.2 hs
    unfold SiteDescription_init
    rw [check_enum_ok_of_mem "topologyB" true hm]
    rfl
  · intro s hs lat lon
    have hm : enumContains TopographySchemaB (.pyStr s) = false := by
      cases h : enumContains TopographySchemaB (.pyStr s) with
      | false => rfl
      | true => exact absurd (enumContains_pyStr.1 h) hs
    have hv : ¬(true = true ∧ PyVal.pyStr s = PyVal.none) := by
      rintro ⟨-, h⟩
      cases h
    unfold SiteDescription_init
    rw [check_enum_error_of_not_mem "topologyB" hm hv]
    rfl

/-- C6 witness: the general clauses instantiated — the member "T3" of
schema A is accepted and stored, the non-member "T9" rejected; the member
"Ridge" of schema B is accepted and stored, the non-member "peak"
rejected. -/
theorem spec_c6_enum_fields_witness :
    SiteDescription_init (.pyFloat 1) (.pyFloat 2) .none .none .none .none
        .none .none .none .none (.pyStr "T3") .none
      = .ok (.obj .SiteDescription [.pyFloat 1, .pyFloat 2, .none, .none,
          .none, .none, .none, .none, .none, .none, .pyStr "T3", .none])
    ∧ SiteDescription_init (.pyFloat 1) (.pyFloat 2) .none .none .none .none
        .none .none .none .none (.pyStr "T9") .none
      = .error (.invalidEnumValue "topologyA"
          [.pyStr "T1", .pyStr "T2", .pyStr "T3", .pyStr "T4"] (.pyStr "T9"))
    ∧ SiteDescription_init (.pyFloat 1) (.pyFloat 2) .none .none .none .none
        .none .none .none .none .none (.pyStr "Ridge")
      = .ok (.obj .SiteDescription [.pyFloat 1, .pyFloat 2, .none, .none,
          .none, .none, .none, .none, .none, .none, .none, .pyStr "Ridge"])
    ∧ SiteDescription_init (.pyFloat 1) (.pyFloat 2) .none .none .none .none
        .none .none .none .none .none (.pyStr "peak")
      = .error (.invalidEnumValue "topologyB"
          [.pyStr "Valley", .pyStr "Lower slope", .pyStr "Flat",
            .pyStr "Middle slope", .pyStr "Upper slope", .pyStr "Ridge"]
          (.pyStr "peak")) :=
  ⟨spec_c6_enum_fields_accept_members_reject_others.2.2.1 "T3" (by decide)
      (.pyFloat 1) (.pyFloat 2),
   spec_c6_enum_fields_accept_members_reject_others.2.2.2.1 "T9" (by decide)
      (.pyFloat 1) (.pyFloat 2),
   spec_c6_enum_fields_accept_members_reject_others.2.2.2.2.1 "Ridge"
      (by decide) (.pyFloat 1) (.pyFloat 2),
   spec_c6_enum_fields_accept_members_reject_others.2.2.2.2.2 "peak"
      (by decide) (.pyFloat 1) (.pyFloat 2)⟩

/-- C7: each `SiteIndicator` subtype constructor fixes the `name` attribute
to its literal ("H800", "EC8", "bedrock_depth", "geological_unit",
"resonance_frequency", "velocity_s30") and forwards every other argument to
the base construction protocol (`GeologicalUnit` and `velocityS30`
additionally store their two extra attributes); in particular
`H800_class(value=12.5)` yields `name == "H800"`, `value == 12.5`,
`methods == []`. -/
theorem spec_c7_subtypes_fix_name_and_forward :
    (∀ v u m qi ls er,
      H800_class_init v u m qi ls er
        = .obj .H800_class (SiteIndicator_fields (.pyStr "H800") v u m qi
            ls er)
      ∧ attrAt (H800_class_init v u m qi ls er) 0 = .pyStr "H800"
      ∧ attrAt (H800_class_init v u m qi ls er) 1 = v)
    ∧ (∀ v u m qi ls er,
      EC8_class_init v u m qi ls er
        = .obj .EC8_class (SiteIndicator_fields (.pyStr "EC8") v u m qi
            ls er)
      ∧ attrAt (EC8_class_init v u m qi ls er) 0 = .pyStr "EC8"
      ∧ attrAt (EC8_class_init v u m qi ls er) 1 = v)
    ∧ (∀ v u m qi ls er,
      BedrockDepth_init v u m qi ls er
        = .obj .BedrockDepth (SiteIndicator_fields (.pyStr "bedrock_depth")
            v u m qi ls er)
      ∧ attrAt (BedrockDepth_init v u m qi ls er) 0 = .pyStr "bedrock_depth"
      ∧ attrAt (BedrockDepth_init v u m qi ls er) 1 = v)
    ∧ (∀ v u m qi ls er gms oge,
      GeologicalUnit_init v u m qi ls er gms oge
        = .obj .GeologicalUnit
            (SiteIndicator_fields (.pyStr "geological_unit") v u m qi ls er
              ++ [gms, oge])
      ∧ attrAt (GeologicalUnit_init v u m qi ls er gms oge) 0
        = .pyStr "geological_unit"
      ∧ attrAt (GeologicalUnit_init v u m qi ls er gms oge) 1 = v
      ∧ attrAt (GeologicalUnit_init v u m qi ls er gms oge) 7 = gms
      ∧ attrAt (GeologicalUnit_init v u m qi ls er gms oge) 8 = oge)
    ∧ (∀ v u m qi ls er,
      ResonanceFrequency_init v u m qi ls er
        = .obj .ResonanceFrequency
            (SiteIndicator_fields (.pyStr "resonance_frequency") v u m qi
              ls er)
      ∧ attrAt (ResonanceFrequency_init v u m qi ls er) 0
        = .pyStr "resonance_frequency"
      ∧ attrAt (ResonanceFrequency_init v u m qi ls er) 1 = v)
    ∧ (∀ v u m qi ls er mcqi mqi,
      velocityS30_init v u m qi ls er mcqi mqi
        = .obj .velocityS30
            (SiteIndicator_fields (.pyStr "velocity_s30") v u m qi ls er
              ++ [mcqi, mqi])
      ∧ attrAt (velocityS30_init v u m qi ls er mcqi mqi) 0
        = .pyStr "velocity_s30"
      ∧ attrAt (velocityS30_init v u m qi ls er mcqi mqi) 1 = v
      ∧ attrAt (velocityS30_init v u m qi ls er mcqi mqi) 7 = mcqi
      ∧ attrAt (velocityS30_init v u m qi ls er mcqi mqi) 8 = mqi)
    ∧ attrAt (H800_class_init (.pyFloat 12.5) .none .none .none .none .none)
        0 = .pyStr "H800"
    ∧ attrAt (H800_class_init (.pyFloat 12.5) .none .none .none .none .none)
        1 = .pyFloat 12.5
    ∧ attrAt (H800_class_init (.pyFloat 12.5) .none .none .none .none .none)
        3 = .pyList [] :=
  ⟨fun _ _ _ _ _ _ => ⟨rfl, rfl, rfl⟩,
   fun _ _ _ _ _ _ => ⟨rfl, rfl, rfl⟩,
   fun _ _ _ _ _ _ => ⟨rfl, rfl, rfl⟩,
   fun _ _ _ _ _ _ _ _ => ⟨rfl, rfl, rfl, rfl, rfl⟩,
   fun _ _ _ _ _ _ => ⟨rfl, rfl, rfl⟩,
   fun _ _ _ _ _ _ _ _ => ⟨rfl, rfl, rfl, rfl, rfl⟩,
   rfl, rfl, rfl⟩

/-- C8: entity equality (inherited from `ComparingObject`, modelled from the
spec) is structural — two entities of the same class are equal exactly when
their stored field lists are equal; in particular two entities built by the
same constructor from identical inputs are equal, and two entities of the
same class whose field lists differ at one position are unequal. -/
theorem spec_c8_structural_equality :
    (∀ (c : PyClass) (f1 f2 : List PyVal),
      comparingEq (.obj c f1) (.obj c f2) ↔ f1 = f2)
    ∧ (∀ t fa sa y bt lang doi,
      comparingEq (LiteratureSource_init t fa sa y bt lang doi)
        (LiteratureSource_init t fa sa y bt lang doi))
    ∧ (∀ lc d, comparingEq (VelocityProfile_init lc d)
        (VelocityProfile_init lc d))
    ∧ (∀ (c : PyClass) (pre post : List PyVal) (x y : PyVal), x ≠ y →
      ¬ comparingEq (.obj c (pre ++ x :: post))
        (.obj c (pre ++ y :: post))) := by
  refine ⟨fun c f1 f2 => ?_, fun t fa sa y bt lang doi => ⟨rfl, rfl⟩,
    fun lc d => ⟨rfl, rfl⟩, fun c pre post x y hxy h => ?_⟩
  · simp [comparingEq]
  · have hfs : pre ++ x :: post = pre ++ y :: post := h.2
    exact hxy (List.cons.injEq .. ▸ List.append_cancel_left hfs).1

/-- C8 witness: two `LiteratureSource` entities built from the identical
title "A" are equal; changing the stored title to "B" makes them unequal. -/
theorem spec_c8_structural_equality_witness :
    comparingEq (LiteratureSource_init (.pyStr "A") .none .none .none .none
        .none .none)
      (LiteratureSource_init (.pyStr "A") .none .none .none .none .none
        .none)
    ∧ ¬ comparingEq (.obj .LiteratureSource
        ([] ++ PyVal.pyStr "A" :: [.none, .none, .none, .none, .none, .none]))
      (.obj .LiteratureSource
        ([] ++ PyVal.pyStr "B" :: [.none, .none, .none, .none, .none, .none])) :=
  ⟨spec_c8_structural_equality.2.1 (.pyStr "A") .none .none .none .none
      .none .none,
   spec_c8_structural_equality.2.2.2 .LiteratureSource []
      [.none, .none, .none, .none, .none, .none] (.pyStr "A") (.pyStr "B")
      (by intro h; injection h with h2; exact absurd h2 (by decide))⟩

/-- C9: `VelocityProfile`, `VelocityProfileData` and `LiteratureSource`
construction never fails and stores every argument unchanged, and the plain
fields of `SiteCharacterizationParameters` (publicID, analysis_publicID,
the four count fields) together with a provided `velocity_profile` list —
whatever its elements — are stored unchanged with no validation. -/
theorem spec_c9_plain_fields_unvalidated :
    (∀ lc d, attrAt (VelocityProfile_init lc d) 0 = lc
      ∧ attrAt (VelocityProfile_init lc d) 1 = d)
    ∧ (∀ de vp vs lt lb,
      attrAt (VelocityProfileData_init de vp vs lt lb) 0 = de
      ∧ attrAt (VelocityProfileData_init de vp vs lt lb) 1 = vp
      ∧ attrAt (VelocityProfileData_init de vp vs lt lb) 2 = vs
      ∧ attrAt (VelocityProfileData_init de vp vs lt lb) 3 = lt
      ∧ attrAt (VelocityProfileData_init de vp vs lt lb) 4 = lb)
    ∧ (∀ t fa sa y bt lang doi,
      LiteratureSource_init t fa sa y bt lang doi
        = .obj .LiteratureSource [t, fa, sa, y, bt, lang, doi])
    ∧ (∀ pid apid vpc spt cpt bh (xs : List PyVal),
      SiteCharacterizationParameters_init pid apid .none .none vpc
          (.pyList xs) spt cpt bh
        = .ok (.obj .SiteCharacterizationParameters [pid, apid, .none,
            .none, vpc, .pyList xs, spt, cpt, bh])) := by
  refine ⟨fun lc d => ⟨rfl, rfl⟩, fun de vp vs lt lb => ⟨rfl, rfl, rfl, rfl,
    rfl⟩, fun t fa sa y bt lang doi => rfl, fun pid apid vpc spt cpt bh xs => ?_⟩
  cases xs <;> rfl

/-- C10: passing an explicitly empty list for a sequence field produces
exactly the same entity as omitting the field (passing the absent marker):
for `methods` on the `SiteIndicator` base and on every subtype, and for
`velocity_profile` on `SiteCharacterizationParameters`. -/
theorem spec_c10_empty_sequence_equals_omitted :
    (∀ n v u qi ls er, SiteIndicator_init n v u (.pyList []) qi ls er
      = SiteIndicator_init n v u .none qi ls er)
    ∧ (∀ v u qi ls er, H800_class_init v u (.pyList []) qi ls er
      = H800_class_init v u .none qi ls er)
    ∧ (∀ v u qi ls er, EC8_class_init v u (.pyList []) qi ls er
      = EC8_class_init v u .none qi ls er)
    ∧ (∀ v u qi ls er, BedrockDepth_init v u (.pyList []) qi ls er
      = BedrockDepth_init v u .none qi ls er)
    ∧ (∀ v u qi ls er gms oge,
      GeologicalUnit_init v u (.pyList []) qi ls er gms oge
        = GeologicalUnit_init v u .none qi ls er gms oge)
    ∧ (∀ v u qi ls er, ResonanceFrequency_init v u (.pyList []) qi ls er
      = ResonanceFrequency_init v u .none qi ls er)
    ∧ (∀ v u qi ls er mcqi mqi,
      velocityS30_init v u (.pyList []) qi ls er mcqi mqi
        = velocityS30_init v u .none qi ls er mcqi mqi)
    ∧ (∀ pid apid rf v30 vpc spt cpt bh,
      SiteCharacterizationParameters_init pid apid rf v30 vpc (.pyList [])
          spt cpt bh
        = SiteCharacterizationParameters_init pid apid rf v30 vpc .none spt
            cpt bh) :=
  ⟨fun _ _ _ _ _ _ => rfl, fun _ _ _ _ _ => rfl, fun _ _ _ _ _ => rfl,
   fun _ _ _ _ _ => rfl, fun _ _ _ _ _ _ _ => rfl, fun _ _ _ _ _ => rfl,
   fun _ _ _ _ _ _ _ => rfl, fun _ _ _ _ _ _ _ _ => rfl⟩
